import Mathlib

/-!
Shallow embedding of the frontdbforet authentication client.

Sources embedded here:
* src/src/lib/api.ts             - axios response interceptor (refresh coordinator)
* src/unnamed/part_000           - server-side cookie utilities (lib/cookies)
* src/unnamed/part_003           - AuthContext (session state store)
* src/unnamed/part_009           - route-protection proxy (middleware)
* src/src/app/api/auth/signin/route.ts, src/unnamed/part_006 (signup),
  src/src/app/api/auth/refresh/route.ts, src/src/app/api/auth/logout/route.ts
-/

namespace Frontdb

/-! ## Session cookie store (src/unnamed/part_000) -/

/-- SameSite attribute values, as in the CookieOptions interface. -/
inductive SameSiteVal
  | strict
  | lax
  | noneVal
deriving DecidableEq, Repr

/-- CookieOptions from part_000: every field optional, absent fields fall back to
the defaults by object spread. -/
structure CookieOptions where
  httpOnly : Option Bool := none
  secure : Option Bool := none
  sameSite : Option SameSiteVal := none
  maxAge : Option Nat := none
  path : Option String := none
deriving DecidableEq, Repr

/-- defaultCookieOptions from part_000 line 62: httpOnly true, secure only in
production, sameSite strict, path "/" (no maxAge). -/
def defaultCookieOptions (isProd : Bool) : CookieOptions :=
  { httpOnly := some true
    secure := some isProd
    sameSite := some SameSiteVal.strict
    path := some "/"
    maxAge := none }

/-- Object-spread merge: a field given in the override wins, otherwise the
default field is kept (models the spread in setCookie, part_000 line 97). -/
def mergeOptions (d o : CookieOptions) : CookieOptions :=
  { httpOnly := match o.httpOnly with | some b => some b | none => d.httpOnly
    secure := match o.secure with | some b => some b | none => d.secure
    sameSite := match o.sameSite with | some s => some s | none => d.sameSite
    maxAge := match o.maxAge with | some n => some n | none => d.maxAge
    path := match o.path with | some p => some p | none => d.path }

/-- One concrete cookieStore.set call: name, value, and the fully merged
options it was performed with. -/
structure CookieWrite where
  name : String
  value : String
  options : CookieOptions
deriving DecidableEq, Repr

/-- setCookie from part_000 line 90: merges the caller options over the
defaults and performs one store write. -/
def setCookie (isProd : Bool) (name value : String) (options : CookieOptions) :
    CookieWrite :=
  { name := name, value := value
    options := mergeOptions (defaultCookieOptions isProd) options }

/-- deleteCookie from part_000 line 136: writes an empty value with the default
options and maxAge 0. -/
def deleteCookie (isProd : Bool) (name : String) : CookieWrite :=
  { name := name, value := ""
    options := { defaultCookieOptions isProd with maxAge := some 0 } }

/-- Cookie name defaults from COOKIE_NAMES (part_000 line 73); the environment
overrides are read once at process start and default to these values. -/
def accessTokenName : String := "accessToken"

/-- Default name of the refresh-token cookie (COOKIE_NAMES.REFRESH_TOKEN). -/
def refreshTokenName : String := "refreshToken"

/-- setAuthCookies from part_000 line 161: access cookie for 900 s and refresh
cookie for 604800 s, both through setCookie. -/
def setAuthCookiesWrites (isProd : Bool) (accessToken refreshToken : String) :
    List CookieWrite :=
  [ setCookie isProd accessTokenName accessToken { maxAge := some (15 * 60) }
  , setCookie isProd refreshTokenName refreshToken
      { maxAge := some (7 * 24 * 60 * 60) } ]

/-- clearAuthCookies from part_000 line 181: deleteCookie on both names. -/
def clearAuthCookiesWrites (isProd : Bool) : List CookieWrite :=
  [ deleteCookie isProd accessTokenName, deleteCookie isProd refreshTokenName ]

/-- The local setCookie helper of src/src/app/api/auth/logout/route.ts
(lines 140-150): its literal base options use sameSite lax, and the caller
options are spread over that base. -/
def logoutHelperSetCookie (isProd : Bool) (name value : String)
    (options : CookieOptions) : CookieWrite :=
  { name := name, value := value
    options := mergeOptions
      { httpOnly := some true
        secure := some isProd
        sameSite := some SameSiteVal.lax
        path := some "/"
        maxAge := none } options }

/-- Browser-visible state of the two session cookies. -/
structure CookieJar where
  access : Option String
  refresh : Option String
deriving DecidableEq, Repr

/-- Applying one write to the jar: a write with maxAge 0 expires the cookie
immediately (the browser deletes it), anything else stores the value. Writes
to other names leave the two session cookies alone. -/
def applyWrite (jar : CookieJar) (w : CookieWrite) : CookieJar :=
  if w.name = accessTokenName then
    if w.options.maxAge = some 0 then { jar with access := none }
    else { jar with access := some w.value }
  else if w.name = refreshTokenName then
    if w.options.maxAge = some 0 then { jar with refresh := none }
    else { jar with refresh := some w.value }
  else jar

/-- Applying a list of writes in order. -/
def applyWrites (jar : CookieJar) (ws : List CookieWrite) : CookieJar :=
  ws.foldl applyWrite jar

/-- JavaScript truthiness of an optional cookie value: undefined and the empty
string are falsy. -/
def truthy : Option String → Bool
  | some s => s ≠ ""
  | none => false

/-! ## API route handlers -/

/-- Outcome of one backend call that is expected to return a token pair
(authenticate, register, renew). The ok payload carries the two extracted
token strings; an extraction miss surfaces as the empty string, matching the
JavaScript truthiness checks in the routes. -/
inductive BackendAuth
  | ok (access refresh : String)
  | httpErr (status : Nat)
  | netErr
deriving DecidableEq, Repr

/-- Outcome of the backend invalidate-session (logout) call. -/
inductive BackendCallR
  | ok
  | err401
  | errOther (status : Nat)
  | netErr
deriving DecidableEq, Repr

/-- Result of one route invocation: the resulting cookie jar, the HTTP status
returned to the client, and the trace of session-cookie writes performed. -/
structure RouteResult where
  jar : CookieJar
  status : Nat
  writes : List CookieWrite
deriving DecidableEq, Repr

/-- POST /api/auth/signin (src/src/app/api/auth/signin/route.ts): validates the
body, forwards to the backend, and on a token pair sets both auth cookies;
on any failure the cookies are left untouched. -/
def signinRoute (isProd : Bool) (email password : String)
    (resp : BackendAuth) (jar : CookieJar) : RouteResult :=
  if email = "" ∨ password = "" then { jar := jar, status := 400, writes := [] }
  else
    match resp with
    | BackendAuth.ok a r =>
        if a = "" ∨ r = "" then { jar := jar, status := 500, writes := [] }
        else
          { jar := applyWrites jar (setAuthCookiesWrites isProd a r)
            status := 200
            writes := setAuthCookiesWrites isProd a r }
    | BackendAuth.httpErr s =>
        { jar := jar, status := if s = 0 then 500 else s, writes := [] }
    | BackendAuth.netErr => { jar := jar, status := 500, writes := [] }

/-- POST /api/auth/signup (src/unnamed/part_006): same shape as signin with a
username field and a 201 success status. -/
def signupRoute (isProd : Bool) (email username password : String)
    (resp : BackendAuth) (jar : CookieJar) : RouteResult :=
  if email = "" ∨ password = "" ∨ username = "" then
    { jar := jar, status := 400, writes := [] }
  else
    match resp with
    | BackendAuth.ok a r =>
        if a = "" ∨ r = "" then { jar := jar, status := 500, writes := [] }
        else
          { jar := applyWrites jar (setAuthCookiesWrites isProd a r)
            status := 201
            writes := setAuthCookiesWrites isProd a r }
    | BackendAuth.httpErr s =>
        { jar := jar, status := if s = 0 then 500 else s, writes := [] }
    | BackendAuth.netErr => { jar := jar, status := 500, writes := [] }

/-- POST /api/auth/refresh (src/src/app/api/auth/refresh/route.ts, the
validated variant): absent refresh cookie clears both cookies and returns 401;
a backend token pair replaces both cookies; a missing token in the response
clears both and returns 500; every axios error (HTTP or network) clears both
and returns 401. -/
def refreshRoute (isProd : Bool) (resp : BackendAuth) (jar : CookieJar) :
    RouteResult :=
  if truthy jar.refresh = false then
    { jar := applyWrites jar (clearAuthCookiesWrites isProd)
      status := 401
      writes := clearAuthCookiesWrites isProd }
  else
    match resp with
    | BackendAuth.ok a r =>
        if a = "" ∨ r = "" then
          { jar := applyWrites jar (clearAuthCookiesWrites isProd)
            status := 500
            writes := clearAuthCookiesWrites isProd }
        else
          { jar := applyWrites jar (setAuthCookiesWrites isProd a r)
            status := 200
            writes := setAuthCookiesWrites isProd a r }
    | BackendAuth.httpErr _ =>
        { jar := applyWrites jar (clearAuthCookiesWrites isProd)
          status := 401
          writes := clearAuthCookiesWrites isProd }
    | BackendAuth.netErr =>
        { jar := applyWrites jar (clearAuthCookiesWrites isProd)
          status := 401
          writes := clearAuthCookiesWrites isProd }

/-- POST /api/auth/logout (src/src/app/api/auth/logout/route.ts): tries the
backend logout when a token is present; on a 401 it attempts a refresh and, if
that yields a token pair, rewrites both cookies through the lax helper before
retrying; every path ends in clearAuthCookies and a 200 response. -/
def logoutRoute (isProd : Bool) (b1 : BackendCallR) (refreshResp : BackendAuth)
    (_b2 : BackendCallR) (jar : CookieJar) : RouteResult :=
  let retryWrites : List CookieWrite :=
    if truthy jar.access ∨ truthy jar.refresh then
      match b1 with
      | BackendCallR.err401 =>
          match refreshResp with
          | BackendAuth.ok a r =>
              if a ≠ "" ∧ r ≠ "" then
                [ logoutHelperSetCookie isProd accessTokenName a
                    { maxAge := some (15 * 60) }
                , logoutHelperSetCookie isProd refreshTokenName r
                    { maxAge := some (7 * 24 * 60 * 60) } ]
              else []
          | _ => []
      | _ => []
    else []
  let ws := retryWrites ++ clearAuthCookiesWrites isProd
  { jar := applyWrites jar ws, status := 200, writes := ws }

/-! ## Session state store (src/unnamed/part_003, AuthContext) -/

/-- Cached identity: email plus username (types/auth, part_004). -/
structure UserId where
  email : String
  username : String
deriving DecidableEq, Repr

/-- Client-side auth state: the in-memory user, the localStorage cache, the
loading flag and the last navigation target pushed on the router. -/
structure ClientState where
  user : Option UserId
  storedUser : Option UserId
  isLoading : Bool
  nav : Option String
deriving DecidableEq, Repr

/-- Substring test on character lists: models the JavaScript
String.prototype.includes used by checkAuth. -/
def charsInclude : List Char → List Char → Bool
  | [], pat => pat.isEmpty
  | c :: rest, pat => pat.isPrefixOf (c :: rest) || charsInclude rest pat

/-- JavaScript s.includes(pat) on strings. -/
def strIncludes (s pat : String) : Bool :=
  charsInclude s.toList pat.toList

/-- JavaScript s.startsWith(pre) on strings. -/
def strStartsWith (s pre : String) : Bool :=
  pre.toList.isPrefixOf s.toList

/-- Placeholder user set by checkAuth when the cookie marker is present but no
cached user exists (part_003 lines 141-144). -/
def placeholderUser : UserId := { email := "user@example.com", username := "User" }

/-- checkAuth from part_003 lines 130-153: tests document.cookie for the
substring accessToken; when found it installs the cached (or placeholder)
user; when absent it leaves the user untouched; isLoading always ends false. -/
def checkAuth (docCookie : String) (s : ClientState) : ClientState :=
  if strIncludes docCookie "accessToken" then
    match s.storedUser with
    | some u => { s with user := some u, isLoading := false }
    | none => { s with user := some placeholderUser, isLoading := false }
  else { s with isLoading := false }

/-- isAuthenticated from part_003 line 277: the double negation of user. -/
def isAuthenticatedState (s : ClientState) : Bool :=
  s.user.isSome

/-- Initial client state (part_003 lines 98-99): no user, isLoading true. -/
def initialClientState : ClientState :=
  { user := none, storedUser := none, isLoading := true, nav := none }

/-- refreshAuth from part_003 line 258: exactly a call to checkAuth. -/
def refreshAuth (docCookie : String) (s : ClientState) : ClientState :=
  checkAuth docCookie s

/-- signIn from part_003 lines 205-228: on success stores the identity derived
from the submitted data and navigates to the fixed dashboard path. The
username falls back to the part of the email before the first @. -/
def signInClient (email : String) (ok : Bool) (s : ClientState) : ClientState :=
  if ok then
    let u : UserId := { email := email
                        username := (email.splitOn "@").headD email }
    { s with user := some u, storedUser := some u
             nav := some "/dashboard", isLoading := false }
  else { s with isLoading := false }

/-- Navigation target pushed by a successful signIn (part_003 line 221). -/
def signInNavTarget : String := "/dashboard"

/-- logout from part_003 lines 230-250: whether the route call resolves or
throws, the user and the localStorage cache are cleared and the router is
pushed to /signin. -/
def logoutClient (routeOk : Bool) (s : ClientState) : ClientState :=
  if routeOk then
    { s with user := none, storedUser := none
             nav := some "/signin", isLoading := false }
  else
    { s with user := none, storedUser := none
             nav := some "/signin", isLoading := false }

/-! ## Route gate (src/unnamed/part_009, the proxy) -/

/-- Routes that an authenticated user is bounced away from. -/
def AUTH_ROUTES : List String := ["/signin", "/signup"]

/-- Routes that require the access cookie. -/
def PROTECTED_ROUTES : List String := ["/dashboard"]

/-- Decision of the proxy for one request. -/
inductive GateDecision
  | redirectDashboard
  | redirectSignin (callbackUrl : String)
  | nextPass
deriving DecidableEq, Repr

/-- proxy from part_009 lines 17-37: authentication is truthiness of the
accessToken request cookie; an authenticated hit on an auth route goes to
/dashboard, an unauthenticated hit on a path starting with a protected route
goes to /signin carrying the original pathname as callbackUrl. -/
def proxy (pathname : String) (accessCookie : Option String) : GateDecision :=
  let isAuth := truthy accessCookie
  if isAuth && AUTH_ROUTES.contains pathname then
    GateDecision.redirectDashboard
  else if !isAuth && PROTECTED_ROUTES.any (fun r => strStartsWith pathname r) then
    GateDecision.redirectSignin pathname
  else GateDecision.nextPass

/-! ## Refresh coordinator (src/src/lib/api.ts, response interceptor)

The interceptor is embedded as a labelled transition system. A Task is one
error response travelling through the interceptor: its HTTP status, whether
the failing URL contains /auth/refresh, the _retry marker of the request
descriptor, and the point of the interceptor code the task has reached. The
shared module state (isRefreshing and failedRequestsQueue) lives in Config.
Every synchronous block of the interceptor is one atomic step; awaits
(the renewal POST, the logout POST, a queued promise, a replay) are the
suspension points between steps. -/

/-- Rejection values the interceptor can settle a caller with. -/
inductive RejectReason
  | originalError
  | sessionExpired
  | refreshFailed
deriving DecidableEq, Repr

/-- Final observable outcome of one task. -/
inductive TaskOutcome
  | passedThrough
  | rejected (r : RejectReason)
  | replaySettled
deriving DecidableEq, Repr

/-- Program point of one task inside the interceptor. -/
inductive TaskPhase
  | ready
  | awaitingRefresh
  | queued
  | replaying
  | awaitingLogout (r : RejectReason)
  | done (o : TaskOutcome)
deriving DecidableEq, Repr

/-- One intercepted error response. -/
structure Task where
  status : Nat
  isRefreshUrl : Bool
  retry : Bool
  phase : TaskPhase
deriving DecidableEq, Repr

/-- Module state of api.ts plus the task pool. refreshCount counts the POSTs
dispatched to /api/auth/refresh (line 172). -/
structure Config where
  isRefreshing : Bool
  failedRequestsQueue : List Nat
  tasks : List Task
  refreshCount : Nat
deriving DecidableEq, Repr

/-- Phase of the task with a given id, when it exists. -/
def phaseAt (c : Config) (i : Nat) : Option TaskPhase :=
  (c.tasks.get? i).map Task.phase

/-- The phase a settling promise gives a queued entry: resolve leads to a
replay of the original call, reject finishes the task with that error
(api.ts lines 153-162). -/
def settledPhase : Option RejectReason → TaskPhase
  | none => TaskPhase.replaying
  | some r => TaskPhase.done (TaskOutcome.rejected r)

/-- Settling one queue entry: a one-shot promise, so only an entry still in
the queued phase changes. -/
def settleEntry (err : Option RejectReason) (tasks : List Task) (i : Nat) :
    List Task :=
  match tasks.get? i with
  | some t =>
      if t.phase = TaskPhase.queued then
        tasks.set i { t with phase := settledPhase err }
      else tasks
  | none => tasks

/-- processQueue from api.ts lines 50-60: settles every queued entry with the
same outcome and empties the queue, all in one synchronous block. -/
def processQueue (err : Option RejectReason) (c : Config) : Config :=
  { c with
    tasks := c.failedRequestsQueue.foldl (settleEntry err) c.tasks
    failedRequestsQueue := [] }

/-- The synchronous prefix of the error interceptor (api.ts lines 124-174)
run for task i while it sits at its entry point:
* a 401 on the refresh URL clears the flag, rejects the whole queue with the
  session-expired error, and suspends on the logout call (lines 132-149);
* a 401 while a refresh is in flight pushes a pending entry (lines 151-163);
* a first 401 marks the descriptor retried, raises the flag and dispatches
  the renewal POST (lines 165-174);
* anything else (non-401 or already retried) passes the error through
  (lines 204-205). -/
def runEntry (c : Config) (i : Nat) : Option Config :=
  match c.tasks.get? i with
  | none => none
  | some t =>
      match t.phase with
      | TaskPhase.ready =>
          if t.status = 401 ∧ t.retry = false then
            if t.isRefreshUrl then
              let c1 := processQueue (some RejectReason.sessionExpired)
                { c with isRefreshing := false }
              some { c1 with
                tasks := c1.tasks.set i
                  { t with phase :=
                      TaskPhase.awaitingLogout RejectReason.originalError } }
            else if c.isRefreshing then
              some { c with
                failedRequestsQueue := c.failedRequestsQueue ++ [i]
                tasks := c.tasks.set i { t with phase := TaskPhase.queued } }
            else
              some { c with
                isRefreshing := true
                refreshCount := c.refreshCount + 1
                tasks := c.tasks.set i
                  { t with retry := true, phase := TaskPhase.awaitingRefresh } }
          else
            some { c with
              tasks := c.tasks.set i
                { t with phase := TaskPhase.done TaskOutcome.passedThrough } }
      | _ => none

/-- The renewal POST dispatched by task i settles (api.ts lines 171-201):
on success the flag is cleared, the queue is resolved and the task replays
its original call; on failure the flag is cleared, the queue is rejected
with the refresh error and the task suspends on the logout call. Flag clear
and queue drain happen in the same synchronous block as in the source. -/
def refreshSettles (c : Config) (i : Nat) (success : Bool) : Option Config :=
  match c.tasks.get? i with
  | none => none
  | some t =>
      match t.phase with
      | TaskPhase.awaitingRefresh =>
          if success then
            let c1 := processQueue none { c with isRefreshing := false }
            some { c1 with
              tasks := c1.tasks.set i { t with phase := TaskPhase.replaying } }
          else
            let c1 := processQueue (some RejectReason.refreshFailed)
              { c with isRefreshing := false }
            some { c1 with
              tasks := c1.tasks.set i
                { t with phase :=
                    TaskPhase.awaitingLogout RejectReason.refreshFailed } }
      | _ => none

/-- The logout POST awaited by task i settles; the task finishes by
rejecting with the recorded error (api.ts lines 138-148 and 190-200). -/
def logoutSettles (c : Config) (i : Nat) : Option Config :=
  match c.tasks.get? i with
  | none => none
  | some t =>
      match t.phase with
      | TaskPhase.awaitingLogout r =>
          some { c with
            tasks := c.tasks.set i
              { t with phase := TaskPhase.done (TaskOutcome.rejected r) } }
      | _ => none

/-- The replay of task i settles without another 401; the task is finished. -/
def replaySettles (c : Config) (i : Nat) : Option Config :=
  match c.tasks.get? i with
  | none => none
  | some t =>
      match t.phase with
      | TaskPhase.replaying =>
          some { c with
            tasks := c.tasks.set i
              { t with phase := TaskPhase.done TaskOutcome.replaySettled } }
      | _ => none

/-- The replay of task i fails with another 401: the error re-enters the
interceptor carrying the same request descriptor (so the same _retry
marker), with status 401. -/
def replayRejects401 (c : Config) (i : Nat) : Option Config :=
  match c.tasks.get? i with
  | none => none
  | some t =>
      match t.phase with
      | TaskPhase.replaying =>
          some { c with
            tasks := c.tasks.set i
              { t with status := 401, phase := TaskPhase.ready } }
      | _ => none

/-- Scheduler events: which suspension point fires next. -/
inductive Ev
  | run (i : Nat)
  | refreshOk (i : Nat)
  | refreshFail (i : Nat)
  | logoutDone (i : Nat)
  | replayOk (i : Nat)
  | replay401 (i : Nat)
deriving DecidableEq, Repr

/-- One scheduled step. -/
def step (c : Config) : Ev → Option Config
  | Ev.run i => runEntry c i
  | Ev.refreshOk i => refreshSettles c i true
  | Ev.refreshFail i => refreshSettles c i false
  | Ev.logoutDone i => logoutSettles c i
  | Ev.replayOk i => replaySettles c i
  | Ev.replay401 i => replayRejects401 c i

/-- Running a whole schedule; a step that is not enabled aborts the run. -/
def exec (c : Config) : List Ev → Option Config
  | [] => some c
  | e :: es =>
      match step c e with
      | some c1 => exec c1 es
      | none => none

/-- Spec of one incoming error response used to seed the system. -/
structure ErrSpec where
  status : Nat
  isRefreshUrl : Bool
  retry : Bool
deriving DecidableEq, Repr

/-- A freshly arrived error response sits at the interceptor entry. -/
def initTask (s : ErrSpec) : Task :=
  { status := s.status, isRefreshUrl := s.isRefreshUrl
    retry := s.retry, phase := TaskPhase.ready }

/-- Initial module state of api.ts (lines 34 and 41): no refresh in flight,
empty queue, no renewal dispatched yet. -/
def initConfig (specs : List ErrSpec) : Config :=
  { isRefreshing := false
    failedRequestsQueue := []
    tasks := specs.map initTask
    refreshCount := 0 }

/-- An authorized (non-refresh-URL) call failing with 401, not yet retried. -/
def authCall401 : ErrSpec :=
  { status := 401, isRefreshUrl := false, retry := false }

/-! ## List helper lemmas -/

/-- Reading back the updated index of a set. -/
lemma get_set_same {α : Type} : ∀ (l : List α) (i : Nat) (a : α),
    i < l.length → (l.set i a).get? i = some a
  | [], _, _, h => absurd h (Nat.not_lt_zero _)
  | _ :: _, 0, _, _ => rfl
  | _ :: l, i + 1, a, h => get_set_same l i a (Nat.lt_of_succ_lt_succ h)

/-- Reading any other index of a set. -/
lemma get_set_other {α : Type} : ∀ (l : List α) (i j : Nat) (a : α),
    i ≠ j → (l.set i a).get? j = l.get? j
  | [], _, _, _, _ => rfl
  | _ :: _, 0, 0, _, h => absurd rfl h
  | _ :: _, 0, _ + 1, _, _ => rfl
  | _ :: _, _ + 1, 0, _, _ => rfl
  | _ :: l, i + 1, j + 1, a, h =>
      get_set_other l i j a (fun e => h (congrArg Nat.succ e))

/-- A successful lookup bounds the index. -/
lemma lt_of_get_eq_some {α : Type} : ∀ (l : List α) (i : Nat) (a : α),
    l.get? i = some a → i < l.length
  | [], _, _, h => nomatch h
  | _ :: _, 0, _, _ => Nat.succ_pos _
  | _ :: l, i + 1, a, h => Nat.succ_lt_succ (lt_of_get_eq_some l i a h)

/-! ## Lemmas about processQueue -/

/-- A settled entry never carries the queued phase. -/
lemma settledPhase_ne_queued (err : Option RejectReason) :
    settledPhase err ≠ TaskPhase.queued := by
  cases err <;> simp [settledPhase]

/-- settleEntry keeps the length of the pool. -/
lemma settleEntry_length (err : Option RejectReason) (ts : List Task) (i : Nat) :
    (settleEntry err ts i).length = ts.length := by
  unfold settleEntry
  cases h : ts.get? i with
  | none => rfl
  | some t =>
      by_cases hq : t.phase = TaskPhase.queued <;> simp [hq, List.length_set]

/-- settleEntry leaves every other index untouched. -/
lemma settleEntry_get_other (err : Option RejectReason) (ts : List Task)
    (i j : Nat) (hij : j ≠ i) : (settleEntry err ts i).get? j = ts.get? j := by
  unfold settleEntry
  cases h : ts.get? i with
  | none => rfl
  | some t =>
      by_cases hq : t.phase = TaskPhase.queued
      · simp only [hq, if_true]
        exact get_set_other _ _ _ _ (fun e => hij e.symm)
      · simp [hq]

/-- settleEntry leaves any entry that is not in the queued phase untouched. -/
lemma settleEntry_get_nonqueued (err : Option RejectReason) (ts : List Task)
    (i j : Nat) (t : Task) (hj : ts.get? j = some t)
    (hph : t.phase ≠ TaskPhase.queued) :
    (settleEntry err ts i).get? j = some t := by
  by_cases hij : j = i
  · subst hij
    unfold settleEntry
    rw [hj]
    simpa [hph] using hj
  · rw [settleEntry_get_other err ts i j hij]
    exact hj

/-- settleEntry settles a queued entry with the outcome of the cycle. -/
lemma settleEntry_get_queued (err : Option RejectReason) (ts : List Task)
    (i : Nat) (t : Task) (hi : ts.get? i = some t)
    (hq : t.phase = TaskPhase.queued) :
    (settleEntry err ts i).get? i = some { t with phase := settledPhase err } := by
  unfold settleEntry
  rw [hi]
  simp only [hq, if_true]
  exact get_set_same _ _ _ (lt_of_get_eq_some _ _ _ hi)

/-- A queued entry after settleEntry was already queued before it. -/
lemma settleEntry_queued_source (err : Option RejectReason) (ts : List Task)
    (i j : Nat) (u : Task) (h : (settleEntry err ts i).get? j = some u)
    (hq : u.phase = TaskPhase.queued) : ts.get? j = some u := by
  by_cases hij : j = i
  · subst hij
    unfold settleEntry at h
    cases hti : ts.get? j with
    | none =>
        rw [hti] at h
        have h2 : ts.get? j = some u := h
        rw [hti] at h2
        exact h2
    | some t =>
        rw [hti] at h
        have h2 : (if t.phase = TaskPhase.queued then
            ts.set j { t with phase := settledPhase err } else ts).get? j
              = some u := h
        by_cases htq : t.phase = TaskPhase.queued
        · rw [if_pos htq,
            get_set_same _ _ _ (lt_of_get_eq_some _ _ _ hti)] at h2
          cases h2
          exact absurd hq (settledPhase_ne_queued err)
        · rw [if_neg htq] at h2
          rw [hti] at h2
          exact h2
  · rw [settleEntry_get_other err ts i j hij] at h
    exact h

/-- Drain fold keeps the pool length. -/
lemma drain_length (err : Option RejectReason) :
    ∀ (q : List Nat) (ts : List Task),
      (q.foldl (settleEntry err) ts).length = ts.length
  | [], _ => rfl
  | i :: q, ts => by
      rw [List.foldl_cons, drain_length err q, settleEntry_length]

/-- Drain fold leaves non-queued entries untouched. -/
lemma drain_nonqueued (err : Option RejectReason) :
    ∀ (q : List Nat) (ts : List Task) (j : Nat) (t : Task),
      ts.get? j = some t → t.phase ≠ TaskPhase.queued →
      (q.foldl (settleEntry err) ts).get? j = some t
  | [], _, _, _, hj, _ => hj
  | i :: q, ts, j, t, hj, hph => by
      rw [List.foldl_cons]
      exact drain_nonqueued err q _ j t
        (settleEntry_get_nonqueued err ts i j t hj hph) hph

/-- Drain fold leaves indices outside the queue untouched. -/
lemma drain_not_mem (err : Option RejectReason) :
    ∀ (q : List Nat) (ts : List Task) (j : Nat), j ∉ q →
      (q.foldl (settleEntry err) ts).get? j = ts.get? j
  | [], _, _, _ => rfl
  | i :: q, ts, j, hj => by
      rw [List.foldl_cons,
        drain_not_mem err q _ j (fun h => hj (List.mem_cons_of_mem i h)),
        settleEntry_get_other err ts i j (fun e => hj (e ▸ List.mem_cons_self i q))]

/-- Drain fold settles every queued entry listed in the queue. -/
lemma drain_mem_queued (err : Option RejectReason) :
    ∀ (q : List Nat) (ts : List Task) (j : Nat) (t : Task), j ∈ q →
      ts.get? j = some t → t.phase = TaskPhase.queued →
      (q.foldl (settleEntry err) ts).get? j =
        some { t with phase := settledPhase err }
  | [], _, _, _, hm, _, _ => absurd hm (List.not_mem_nil _)
  | i :: q, ts, j, t, hm, hj, hq => by
      rw [List.foldl_cons]
      by_cases hij : j = i
      · subst hij
        exact drain_nonqueued err q _ j _
          (settleEntry_get_queued err ts j t hj hq)
          (settledPhase_ne_queued err)
      · have hm' : j ∈ q := by
          cases List.mem_cons.mp hm with
          | inl h => exact absurd h hij
          | inr h => exact h
        exact drain_mem_queued err q _ j t hm'
          ((settleEntry_get_other err ts i j hij).trans hj) hq

/-- A queued entry surviving the drain fold was queued before it. -/
lemma drain_queued_source (err : Option RejectReason) :
    ∀ (q : List Nat) (ts : List Task) (j : Nat) (u : Task),
      (q.foldl (settleEntry err) ts).get? j = some u →
      u.phase = TaskPhase.queued → ts.get? j = some u
  | [], _, _, _, h, _ => h
  | i :: q, ts, j, u, h, hq => by
      rw [List.foldl_cons] at h
      exact settleEntry_queued_source err ts i j u
        (drain_queued_source err q _ j u h hq) hq

/-! ## The coordinator invariant (claim C10) -/

/-- Coordinator invariant tying the module state to the task pool: the queue
is duplicate free, it lists exactly the tasks suspended in the queued phase,
and whenever no renewal is in flight the queue is empty. -/
def Inv (c : Config) : Prop :=
  c.failedRequestsQueue.Nodup ∧
  (∀ i ∈ c.failedRequestsQueue, phaseAt c i = some TaskPhase.queued) ∧
  (∀ i, i < c.tasks.length → phaseAt c i = some TaskPhase.queued →
    i ∈ c.failedRequestsQueue) ∧
  (c.isRefreshing = false → c.failedRequestsQueue = [])

instance (c : Config) : Decidable (Inv c) := by
  unfold Inv
  infer_instance

/-- A config with an empty queue and no queued task satisfies the
invariant. -/
lemma inv_of_fields (c : Config) (hq : c.failedRequestsQueue = [])
    (hnoq : ∀ j, phaseAt c j ≠ some TaskPhase.queued) : Inv c := by
  refine ⟨hq ▸ List.nodup_nil, ?_, ?_, fun _ => hq⟩
  · intro j hj
    rw [hq] at hj
    exact absurd hj (List.not_mem_nil j)
  · intro j _ hph
    exact absurd hph (hnoq j)

/-- Core drain argument: after a queue drain (flag clear, processQueue, queue
reset) followed by one task update to a non-queued phase, the invariant
holds again whatever the new flag and counter are. -/
lemma inv_drain_set (c : Config) (err : Option RejectReason) (i : Nat)
    (t' : Task) (hi : i < c.tasks.length)
    (h3 : ∀ j, j < c.tasks.length → phaseAt c j = some TaskPhase.queued →
      j ∈ c.failedRequestsQueue)
    (ht' : t'.phase ≠ TaskPhase.queued) (b : Bool) (n : Nat) :
    Inv { isRefreshing := b
          failedRequestsQueue := []
          tasks := (c.failedRequestsQueue.foldl (settleEntry err) c.tasks).set i t'
          refreshCount := n } := by
  refine inv_of_fields _ rfl ?_
  intro j hph
  simp only [phaseAt] at hph
  by_cases hij : j = i
  · subst hij
    rw [get_set_same _ _ _ (by rw [drain_length]; exact hi)] at hph
    exact ht' (Option.some.inj hph)
  · rw [get_set_other _ _ _ _ (fun e => hij e.symm)] at hph
    cases hfj : (c.failedRequestsQueue.foldl (settleEntry err) c.tasks).get? j with
    | none => rw [hfj] at hph; exact nomatch hph
    | some u =>
        rw [hfj] at hph
        have hq : u.phase = TaskPhase.queued := Option.some.inj hph
        have hsrc : c.tasks.get? j = some u :=
          drain_queued_source err _ _ j u hfj hq
        have hmem : j ∈ c.failedRequestsQueue := by
          refine h3 j (lt_of_get_eq_some _ _ _ hsrc) ?_
          simp only [phaseAt, hsrc]
          exact hph
        have := drain_mem_queued err _ c.tasks j u hmem hsrc hq
        rw [hfj] at this
        have hu := Option.some.inj this
        have : u.phase = settledPhase err := by rw [hu]
        exact settledPhase_ne_queued err (this ▸ hq)

/-- Updating one non-queued task to another non-queued phase keeps the
invariant, with queue, flag and counter untouched. -/
lemma inv_set_task (c : Config) (i : Nat) (t t' : Task) (h : Inv c)
    (hti : c.tasks.get? i = some t) (htq : t.phase ≠ TaskPhase.queued)
    (ht' : t'.phase ≠ TaskPhase.queued) :
    Inv { c with tasks := c.tasks.set i t' } := by
  obtain ⟨h1, h2, h3, h4⟩ := h
  have hnoti : i ∉ c.failedRequestsQueue := by
    intro hmem
    have hp := h2 i hmem
    simp only [phaseAt, hti, Option.map_some] at hp
    exact htq (Option.some.inj hp)
  refine ⟨h1, ?_, ?_, h4⟩
  · intro j hj
    have hji : j ≠ i := fun e => hnoti (e ▸ hj)
    have hp := h2 j hj
    simp only [phaseAt] at hp ⊢
    rw [get_set_other _ _ _ _ (fun e => hji e.symm)]
    exact hp
  · intro j hlt hph
    simp only [phaseAt] at hph
    rw [List.length_set] at hlt
    by_cases hij : j = i
    · subst hij
      rw [get_set_same _ _ _ (lt_of_get_eq_some _ _ _ hti)] at hph
      exact absurd (Option.some.inj hph) ht'
    · rw [get_set_other _ _ _ _ (fun e => hij e.symm)] at hph
      exact h3 j hlt (by simpa only [phaseAt] using hph)

/-- The interceptor entry block preserves the coordinator invariant. -/
lemma inv_runEntry (c : Config) (i : Nat) (c' : Config) (h : Inv c)
    (hs : runEntry c i = some c') : Inv c' := by
  unfold runEntry at hs
  split at hs
  · exact nomatch hs
  next t hti =>
      have hi : i < c.tasks.length := lt_of_get_eq_some _ _ _ hti
      split at hs
      next hph =>
          by_cases hcond : t.status = 401 ∧ t.retry = false
          · rw [if_pos hcond] at hs
            by_cases hurl : t.isRefreshUrl = true
            · rw [if_pos hurl] at hs
              cases Option.some.inj hs
              exact inv_drain_set c (some RejectReason.sessionExpired) i _
                hi h.2.2.1 (by simp) false c.refreshCount
            · rw [if_neg hurl] at hs
              by_cases hflag : c.isRefreshing = true
              · rw [if_pos hflag] at hs
                cases Option.some.inj hs
                obtain ⟨h1, h2, h3, h4⟩ := h
                have hnoti : i ∉ c.failedRequestsQueue := by
                  intro hmem
                  have hp := h2 i hmem
                  simp only [phaseAt, hti] at hp
                  have hp2 : t.phase = TaskPhase.queued := Option.some.inj hp
                  rw [hph] at hp2
                  exact nomatch hp2
                refine ⟨?_, ?_, ?_, ?_⟩
                · simp only [List.nodup_append, List.nodup_singleton,
                    List.disjoint_singleton]
                  exact ⟨h1, trivial, hnoti⟩
                · intro j hj
                  simp only [phaseAt]
                  rcases List.mem_append.mp hj with hjq | hjs
                  · have hji : j ≠ i := fun e => hnoti (e ▸ hjq)
                    rw [get_set_other _ _ _ _ (fun e => hji e.symm)]
                    have hp := h2 j hjq
                    simpa only [phaseAt] using hp
                  · have hji : j = i := List.mem_singleton.mp hjs
                    subst hji
                    rw [get_set_same _ _ _ hi]
                    rfl
                · intro j hlt hphj
                  simp only [phaseAt] at hphj
                  rw [List.length_set] at hlt
                  by_cases hij : j = i
                  · subst hij
                    exact List.mem_append.mpr (Or.inr (List.mem_singleton.mpr rfl))
                  · rw [get_set_other _ _ _ _ (fun e => hij e.symm)] at hphj
                    exact List.mem_append.mpr
                      (Or.inl (h3 j hlt (by simpa only [phaseAt] using hphj)))
                · intro hfl
                  exact absurd (hfl.symm.trans hflag) (by simp)
              · rw [if_neg hflag] at hs
                cases Option.some.inj hs
                obtain ⟨h1, h2, h3, h4⟩ := h
                have hq0 : c.failedRequestsQueue = [] :=
                  h4 (Bool.not_eq_true _ ▸ hflag)
                refine ⟨h1, ?_, ?_, ?_⟩
                · intro j hj
                  rw [hq0] at hj
                  exact absurd hj (List.not_mem_nil j)
                · intro j hlt hphj
                  simp only [phaseAt] at hphj
                  rw [List.length_set] at hlt
                  by_cases hij : j = i
                  · subst hij
                    rw [get_set_same _ _ _ hi] at hphj
                    exact nomatch Option.some.inj hphj
                  · rw [get_set_other _ _ _ _ (fun e => hij e.symm)] at hphj
                    exact h3 j hlt (by simpa only [phaseAt] using hphj)
                · intro hfl
                  exact nomatch hfl
          · rw [if_neg hcond] at hs
            cases Option.some.inj hs
            exact inv_set_task c i t _ h hti (by rw [hph]; simp) (by simp)
      next => exact nomatch hs

/-- Settlement of the renewal POST preserves the coordinator invariant. -/
lemma inv_refreshSettles (c : Config) (i : Nat) (success : Bool) (c' : Config)
    (h : Inv c) (hs : refreshSettles c i success = some c') : Inv c' := by
  unfold refreshSettles at hs
  split at hs
  · exact nomatch hs
  next t hti =>
      have hi : i < c.tasks.length := lt_of_get_eq_some _ _ _ hti
      split at hs
      next hph =>
          cases success with
          | true =>
              rw [if_pos rfl] at hs
              cases Option.some.inj hs
              exact inv_drain_set c none i _ hi h.2.2.1 (by simp)
                false c.refreshCount
          | false =>
              rw [if_neg (by simp)] at hs
              cases Option.some.inj hs
              exact inv_drain_set c (some RejectReason.refreshFailed) i _
                hi h.2.2.1 (by simp) false c.refreshCount
      next => exact nomatch hs

/-- Settlement of the logout POST preserves the coordinator invariant. -/
lemma inv_logoutSettles (c : Config) (i : Nat) (c' : Config) (h : Inv c)
    (hs : logoutSettles c i = some c') : Inv c' := by
  unfold logoutSettles at hs
  split at hs
  · exact nomatch hs
  next t hti =>
      split at hs
      next r hph =>
          cases Option.some.inj hs
          exact inv_set_task c i t _ h hti (by rw [hph]; simp) (by simp)
      next => exact nomatch hs

/-- Settlement of a replay preserves the coordinator invariant. -/
lemma inv_replaySettles (c : Config) (i : Nat) (c' : Config) (h : Inv c)
    (hs : replaySettles c i = some c') : Inv c' := by
  unfold replaySettles at hs
  split at hs
  · exact nomatch hs
  next t hti =>
      split at hs
      next hph =>
          cases Option.some.inj hs
          exact inv_set_task c i t _ h hti (by rw [hph]; simp) (by simp)
      next => exact nomatch hs

/-- A replay failing with a fresh 401 preserves the coordinator invariant. -/
lemma inv_replayRejects401 (c : Config) (i : Nat) (c' : Config) (h : Inv c)
    (hs : replayRejects401 c i = some c') : Inv c' := by
  unfold replayRejects401 at hs
  split at hs
  · exact nomatch hs
  next t hti =>
      split at hs
      next hph =>
          cases Option.some.inj hs
          exact inv_set_task c i t _ h hti (by rw [hph]; simp) (by simp)
      next => exact nomatch hs

/-- Every scheduled step preserves the coordinator invariant. -/
lemma inv_step (c : Config) (e : Ev) (c' : Config) (h : Inv c)
    (hs : step c e = some c') : Inv c' := by
  cases e with
  | run i => exact inv_runEntry c i c' h hs
  | refreshOk i => exact inv_refreshSettles c i true c' h hs
  | refreshFail i => exact inv_refreshSettles c i false c' h hs
  | logoutDone i => exact inv_logoutSettles c i c' h hs
  | replayOk i => exact inv_replaySettles c i c' h hs
  | replay401 i => exact inv_replayRejects401 c i c' h hs

/-- Every schedule preserves the coordinator invariant. -/
lemma inv_exec : ∀ (evs : List Ev) (c c' : Config), Inv c →
    exec c evs = some c' → Inv c'
  | [], _, _, h, hs => (Option.some.inj hs) ▸ h
  | e :: evs, c, c', h, hs => by
      unfold exec at hs
      cases hst : step c e with
      | none => rw [hst] at hs; exact nomatch hs
      | some c1 =>
          rw [hst] at hs
          exact inv_exec evs c1 c' (inv_step c e c1 h hst) hs

/-- The initial module state satisfies the coordinator invariant. -/
lemma inv_init (specs : List ErrSpec) : Inv (initConfig specs) := by
  refine inv_of_fields _ rfl ?_
  intro j hph
  simp only [phaseAt, initConfig, List.get?_map] at hph
  cases hsj : specs.get? j with
  | none => rw [hsj] at hph; exact nomatch hph
  | some s =>
      rw [hsj] at hph
      exact nomatch Option.some.inj hph

/-! ## Claim C10 -/

/-- C10: whenever the Refresh-In-Progress flag is false at a suspension point
of any schedule, the pending-request queue is empty - entries are pushed only
while the flag is set, and both settlement paths clear the flag and drain the
queue inside one synchronous block, so no entry outlives its cycle. -/
theorem c10_flag_false_queue_empty (specs : List ErrSpec) (evs : List Ev)
    (c' : Config) (hexec : exec (initConfig specs) evs = some c')
    (hflag : c'.isRefreshing = false) : c'.failedRequestsQueue = [] :=
  (inv_exec evs (initConfig specs) c' (inv_init specs) hexec).2.2.2 hflag

/-- Witness for C10 at a concrete schedule of two 401 calls followed by a
successful renewal. -/
theorem c10_flag_false_queue_empty_witness :
    exec (initConfig [authCall401, authCall401])
        [Ev.run 0, Ev.run 1, Ev.refreshOk 0] =
      some (⟨false, [], [⟨401, false, true, TaskPhase.replaying⟩,
        ⟨401, false, false, TaskPhase.replaying⟩], 1⟩ : Config) ∧
    (⟨false, [], [⟨401, false, true, TaskPhase.replaying⟩,
      ⟨401, false, false, TaskPhase.replaying⟩], 1⟩ : Config).failedRequestsQueue
        = [] :=
  ⟨by decide,
    c10_flag_false_queue_empty [authCall401, authCall401]
      [Ev.run 0, Ev.run 1, Ev.refreshOk 0] _ (by decide) (by decide)⟩

/-! ## Claim C2 -/

/-- Error handed to processQueue when the renewal settles (api.ts lines
179 and 188). -/
def refreshErr (ok : Bool) : Option RejectReason :=
  if ok then none else some RejectReason.refreshFailed

/-- C2: when the renewal settles with N queued entries, the queue is emptied,
every queued entry is settled with the one shared outcome of the cycle
(resolve unblocking its replay on success, rejection with the renewal error
on failure), every queued task is listed in the queue so none is left
unsettled, and every other task is untouched. -/
theorem c2_queue_all_or_nothing (c : Config) (i : Nat) (ok : Bool)
    (c' : Config) (hInv : Inv c) (hstep : refreshSettles c i ok = some c') :
    c'.failedRequestsQueue = [] ∧
    (∀ j ∈ c.failedRequestsQueue,
      phaseAt c' j = some (settledPhase (refreshErr ok))) ∧
    (∀ j, phaseAt c j = some TaskPhase.queued → j ∈ c.failedRequestsQueue) ∧
    (∀ j, j ∉ c.failedRequestsQueue → j ≠ i → phaseAt c' j = phaseAt c j) := by
  obtain ⟨h1, h2, h3, h4⟩ := hInv
  unfold refreshSettles at hstep
  split at hstep
  · exact nomatch hstep
  next t hti =>
    have hi : i < c.tasks.length := lt_of_get_eq_some _ _ _ hti
    split at hstep
    next hph =>
      have hinoti : i ∉ c.failedRequestsQueue := by
        intro hmem
        have hp := h2 i hmem
        simp only [phaseAt, hti] at hp
        have hp2 : t.phase = TaskPhase.queued := Option.some.inj hp
        rw [hph] at hp2
        exact nomatch hp2
      have hmain : ∀ (err : Option RejectReason) (t' : Task),
          (∀ j ∈ c.failedRequestsQueue,
            phaseAt (Config.mk false []
              ((c.failedRequestsQueue.foldl (settleEntry err) c.tasks).set i t')
              c.refreshCount) j = some (settledPhase err)) ∧
          (∀ j, j ∉ c.failedRequestsQueue → j ≠ i →
            phaseAt (Config.mk false []
              ((c.failedRequestsQueue.foldl (settleEntry err) c.tasks).set i t')
              c.refreshCount) j = phaseAt c j) := by
        intro err t'
        constructor
        · intro j hj
          have hjne : j ≠ i := fun e => hinoti (e ▸ hj)
          have hp := h2 j hj
          simp only [phaseAt] at hp ⊢
          cases hgj : c.tasks.get? j with
          | none => rw [hgj] at hp; exact nomatch hp
          | some u =>
              rw [hgj] at hp
              have hq : u.phase = TaskPhase.queued := Option.some.inj hp
              rw [get_set_other _ _ _ _ (fun e => hjne e.symm),
                drain_mem_queued err _ _ j u hj hgj hq]
              rfl
        · intro j hnm hne
          simp only [phaseAt]
          rw [get_set_other _ _ _ _ (fun e => hne e.symm),
            drain_not_mem err _ _ j hnm]
      cases ok with
      | true =>
          rw [if_pos rfl] at hstep
          cases Option.some.inj hstep
          exact ⟨rfl, (hmain none _).1, fun j hq =>
            h3 j (by
              simp only [phaseAt] at hq
              cases hgj : c.tasks.get? j with
              | none => rw [hgj] at hq; exact nomatch hq
              | some u => exact lt_of_get_eq_some _ _ _ hgj) hq,
            (hmain none _).2⟩
      | false =>
          rw [if_neg (by simp)] at hstep
          cases Option.some.inj hstep
          exact ⟨rfl, (hmain (some RejectReason.refreshFailed) _).1, fun j hq =>
            h3 j (by
              simp only [phaseAt] at hq
              cases hgj : c.tasks.get? j with
              | none => rw [hgj] at hq; exact nomatch hq
              | some u => exact lt_of_get_eq_some _ _ _ hgj) hq,
            (hmain (some RejectReason.refreshFailed) _).2⟩
    next => exact nomatch hstep

/-- Witness for C2 at a concrete cycle: two queued entries, renewal
succeeds, both entries are resolved and the queue empties. -/
theorem c2_queue_all_or_nothing_witness :
    Inv (⟨true, [0, 1], [⟨401, false, false, TaskPhase.queued⟩,
      ⟨401, false, false, TaskPhase.queued⟩,
      ⟨401, false, true, TaskPhase.awaitingRefresh⟩], 1⟩ : Config) ∧
    refreshSettles (⟨true, [0, 1], [⟨401, false, false, TaskPhase.queued⟩,
      ⟨401, false, false, TaskPhase.queued⟩,
      ⟨401, false, true, TaskPhase.awaitingRefresh⟩], 1⟩ : Config) 2 true =
      some (⟨false, [], [⟨401, false, false, TaskPhase.replaying⟩,
        ⟨401, false, false, TaskPhase.replaying⟩,
        ⟨401, false, true, TaskPhase.replaying⟩], 1⟩ : Config) ∧
    (⟨false, [], [⟨401, false, false, TaskPhase.replaying⟩,
      ⟨401, false, false, TaskPhase.replaying⟩,
      ⟨401, false, true, TaskPhase.replaying⟩], 1⟩ :
        Config).failedRequestsQueue = [] :=
  ⟨by decide, by decide,
    (c2_queue_all_or_nothing
      (⟨true, [0, 1], [⟨401, false, false, TaskPhase.queued⟩,
        ⟨401, false, false, TaskPhase.queued⟩,
        ⟨401, false, true, TaskPhase.awaitingRefresh⟩], 1⟩ : Config) 2 true
      (⟨false, [], [⟨401, false, false, TaskPhase.replaying⟩,
        ⟨401, false, false, TaskPhase.replaying⟩,
        ⟨401, false, true, TaskPhase.replaying⟩], 1⟩ : Config)
      (by decide) (by decide)).1⟩

/-! ## Claim C3 -/

/-- C3: evaluation of the interceptor at the failing input - a call already
marked retried that receives another 401 is passed through unchanged (the
final branch of the interceptor, api.ts lines 204-205): no cookie clearing
and no sign-out navigation happen, contradicting the unrecoverable-failure
handling the specification directs. -/
theorem c3_retried_401_passes_through :
    runEntry (⟨false, [], [⟨401, false, true, TaskPhase.ready⟩], 0⟩ : Config)
        0 =
      some (⟨false, [],
        [⟨401, false, true, TaskPhase.done TaskOutcome.passedThrough⟩], 0⟩ :
          Config) := by
  decide

/-! ## Claim C4 -/

/-- Counterexample for C4: a queued caller carries no retried marker, so when
its replay (after the first successful renewal) fails with 401 again, the
interceptor dispatches a second renewal exchange for it and replays it a
second time: refreshCount reaches 2 and task 1 is replaying again. -/
theorem c4_counterexample :
    exec (initConfig [authCall401, authCall401])
        [Ev.run 0, Ev.run 1, Ev.refreshOk 0, Ev.replay401 1, Ev.run 1,
          Ev.refreshOk 1] =
      some (⟨false, [], [⟨401, false, true, TaskPhase.replaying⟩,
        ⟨401, false, true, TaskPhase.replaying⟩], 2⟩ : Config) ∧
    (⟨false, [], [⟨401, false, true, TaskPhase.replaying⟩,
      ⟨401, false, true, TaskPhase.replaying⟩], 2⟩ : Config).refreshCount = 2 ∧
    phaseAt (⟨false, [], [⟨401, false, true, TaskPhase.replaying⟩,
      ⟨401, false, true, TaskPhase.replaying⟩], 2⟩ : Config) 1 =
      some TaskPhase.replaying := by
  decide

/-- C4 (amended): for every call whose descriptor carries the retried marker
- that is, the call that dispatched the renewal - a further 401 cannot reach
the refresh branch: the interceptor neither dispatches a renewal nor queues
nor replays it, leaving flag, queue and dispatch count unchanged and passing
the error through. -/
theorem c4_retried_marker_passes_through (c : Config) (i : Nat) (t : Task)
    (c' : Config) (hti : c.tasks.get? i = some t) (hretry : t.retry = true)
    (hrun : runEntry c i = some c') :
    c'.refreshCount = c.refreshCount ∧
    c'.isRefreshing = c.isRefreshing ∧
    c'.failedRequestsQueue = c.failedRequestsQueue ∧
    phaseAt c' i = some (TaskPhase.done TaskOutcome.passedThrough) := by
  unfold runEntry at hrun
  split at hrun
  · exact nomatch hrun
  next u htu =>
    have hut : u = t := by
      rw [hti] at htu
      exact (Option.some.inj htu).symm
    subst hut
    split at hrun
    next hph =>
      have hcond : ¬(u.status = 401 ∧ u.retry = false) := by
        intro hc
        rw [hretry] at hc
        exact nomatch hc.2
      rw [if_neg hcond] at hrun
      cases Option.some.inj hrun
      refine ⟨rfl, rfl, rfl, ?_⟩
      simp only [phaseAt]
      rw [get_set_same _ _ _ (lt_of_get_eq_some _ _ _ hti)]
      rfl
    next => exact nomatch hrun

/-- Witness for the amended C4 at a concrete retried call. -/
theorem c4_retried_marker_passes_through_witness :
    (⟨false, [], [⟨401, false, true, TaskPhase.ready⟩], 3⟩ :
        Config).tasks.get? 0 = some ⟨401, false, true, TaskPhase.ready⟩ ∧
    runEntry (⟨false, [], [⟨401, false, true, TaskPhase.ready⟩], 3⟩ : Config)
        0 =
      some (⟨false, [],
        [⟨401, false, true, TaskPhase.done TaskOutcome.passedThrough⟩], 3⟩ :
          Config) ∧
    phaseAt (⟨false, [],
      [⟨401, false, true, TaskPhase.done TaskOutcome.passedThrough⟩], 3⟩ :
        Config) 0 = some (TaskPhase.done TaskOutcome.passedThrough) :=
  ⟨by decide, by decide,
    (c4_retried_marker_passes_through
      (⟨false, [], [⟨401, false, true, TaskPhase.ready⟩], 3⟩ : Config) 0
      ⟨401, false, true, TaskPhase.ready⟩
      (⟨false, [],
        [⟨401, false, true, TaskPhase.done TaskOutcome.passedThrough⟩], 3⟩ :
          Config)
      (by decide) (by decide) (by decide)).2.2.2⟩

/-! ## Claim C1: counting machinery and the expiry-window scenario -/

/-- Number of tasks sitting at a given phase. -/
def countPhase (p : TaskPhase) (c : Config) : Nat :=
  c.tasks.countP (fun t => decide (t.phase = p))

/-- Updating one entry shifts a countP by the predicate difference, stated
additively to stay inside Nat. -/
lemma countP_set_add {α : Type} (p : α → Bool) :
    ∀ (l : List α) (i : Nat) (t t' : α), l.get? i = some t →
      (l.set i t').countP p + (if p t then 1 else 0) =
        l.countP p + (if p t' then 1 else 0)
  | [], _, _, _, h => nomatch h
  | a :: l, 0, t, t', h => by
      obtain rfl := Option.some.inj h
      show (t' :: l).countP p + _ = (a :: l).countP p + _
      rw [List.countP_cons, List.countP_cons, Nat.add_right_comm]
  | a :: l, i + 1, t, t', h => by
      have ih := countP_set_add p l i t t' h
      show (a :: l.set i t').countP p + _ = (a :: l).countP p + _
      rw [List.countP_cons, List.countP_cons]
      omega

/-- Every member of a list is reachable through get?. -/
lemma get_of_mem {α : Type} : ∀ (l : List α) (a : α), a ∈ l →
    ∃ n, l.get? n = some a
  | [], a, h => absurd h (List.not_mem_nil a)
  | b :: l, a, h => by
      rcases List.mem_cons.mp h with rfl | h'
      · exact ⟨0, rfl⟩
      · obtain ⟨n, hn⟩ := get_of_mem l a h'
        exact ⟨n + 1, hn⟩

/-- Scenario invariant for one expiry window: N simultaneous 401 responses of
authorized calls, no renewal settled yet. Ties the dispatch counter and the
task census to the flag. -/
def W (N : Nat) (c : Config) : Prop :=
  c.tasks.length = N ∧
  Inv c ∧
  (∀ j t, c.tasks.get? j = some t → t.status = 401 ∧ t.isRefreshUrl = false ∧
    (t.phase = TaskPhase.ready ∧ t.retry = false ∨
     t.phase = TaskPhase.awaitingRefresh ∨ t.phase = TaskPhase.queued)) ∧
  c.refreshCount = (if c.isRefreshing then 1 else 0) ∧
  countPhase TaskPhase.awaitingRefresh c = (if c.isRefreshing then 1 else 0) ∧
  c.failedRequestsQueue.length + countPhase TaskPhase.ready c +
    countPhase TaskPhase.awaitingRefresh c = N

/-- Ready census of the freshly seeded pool. -/
lemma countP_ready_replicate : ∀ (N : Nat),
    ((List.replicate N authCall401).map initTask).countP
      (fun t => decide (t.phase = TaskPhase.ready)) = N
  | 0 => rfl
  | N + 1 => by
      rw [List.replicate_succ, List.map_cons, List.countP_cons,
        countP_ready_replicate N]
      rfl

/-- Renewal census of the freshly seeded pool. -/
lemma countP_await_replicate : ∀ (N : Nat),
    ((List.replicate N authCall401).map initTask).countP
      (fun t => decide (t.phase = TaskPhase.awaitingRefresh)) = 0
  | 0 => rfl
  | N + 1 => by
      rw [List.replicate_succ, List.map_cons, List.countP_cons,
        countP_await_replicate N]
      rfl

/-- The seeded initial state satisfies the scenario invariant. -/
lemma w_init (N : Nat) : W N (initConfig (List.replicate N authCall401)) := by
  refine ⟨?_, inv_init _, ?_, rfl, ?_, ?_⟩
  · simp [initConfig]
  · intro j t hjt
    simp only [initConfig, List.get?_map] at hjt
    cases hreplicate : (List.replicate N authCall401).get? j with
    | none => rw [hreplicate] at hjt; exact nomatch hjt
    | some s =>
        rw [hreplicate] at hjt
        have hs : s = authCall401 :=
          List.eq_of_mem_replicate (List.get?_mem hreplicate)
        obtain rfl := Option.some.inj hjt
        rw [hs]
        exact ⟨rfl, rfl, Or.inl ⟨rfl, rfl⟩⟩
  · show countPhase TaskPhase.awaitingRefresh _ = _
    simp only [countPhase, initConfig]
    rw [countP_await_replicate N]
    rfl
  · show (0 : Nat) + _ + _ = N
    simp only [countPhase, initConfig]
    rw [countP_ready_replicate N, countP_await_replicate N]
    omega

/-- One entry block of the scenario: it acts on a ready 401 task, preserves
the scenario invariant, changes no other task, moves the task out of the
ready phase, and dispatches exactly when the flag was still clear. -/
lemma w_runEntry (N : Nat) (c : Config) (i : Nat) (c1 : Config) (hW : W N c)
    (hs : runEntry c i = some c1) :
    W N c1 ∧ phaseAt c i = some TaskPhase.ready ∧
    (∀ j, j ≠ i → phaseAt c1 j = phaseAt c j) ∧
    phaseAt c1 i ≠ some TaskPhase.ready ∧
    (c.isRefreshing = false → phaseAt c1 i = some TaskPhase.awaitingRefresh) := by
  obtain ⟨hlen, hInv, htasks, hrc, hca, hsum⟩ := hW
  have hInv1 := inv_runEntry c i c1 hInv hs
  unfold runEntry at hs
  split at hs
  · exact nomatch hs
  next t hti =>
    have hi : i < c.tasks.length := lt_of_get_eq_some _ _ _ hti
    obtain ⟨hst, hurl, hph3⟩ := htasks i t hti
    split at hs
    next hph =>
      have hretry : t.retry = false := by
        rcases hph3 with ⟨_, h⟩ | h | h
        · exact h
        · rw [hph] at h; exact nomatch h
        · rw [hph] at h; exact nomatch h
      rw [if_pos ⟨hst, hretry⟩] at hs
      rw [if_neg (by rw [hurl]; exact Bool.false_ne_true)] at hs
      by_cases hflag : c.isRefreshing = true
      · rw [if_pos hflag] at hs
        cases Option.some.inj hs
        have ecr := countP_set_add
          (fun u => decide (u.phase = TaskPhase.ready)) c.tasks i t
          { t with phase := TaskPhase.queued } hti
        simp [hph] at ecr
        have eca := countP_set_add
          (fun u => decide (u.phase = TaskPhase.awaitingRefresh)) c.tasks i t
          { t with phase := TaskPhase.queued } hti
        simp [hph] at eca
        refine ⟨⟨?_, hInv1, ?_, ?_, ?_, ?_⟩, ?_, ?_, ?_, ?_⟩
        · show (c.tasks.set i _).length = N
          rw [List.length_set]
          exact hlen
        · intro j u hju
          by_cases hij : j = i
          · subst hij
            rw [get_set_same _ _ _ hi] at hju
            obtain rfl := Option.some.inj hju
            exact ⟨hst, hurl, Or.inr (Or.inr rfl)⟩
          · rw [get_set_other _ _ _ _ (fun e => hij e.symm)] at hju
            exact htasks j u hju
        · exact hrc
        · show List.countP (fun u => decide (u.phase = TaskPhase.awaitingRefresh))
              (c.tasks.set i { t with phase := TaskPhase.queued }) =
            if c.isRefreshing = true then 1 else 0
          rw [hflag, eca]
          rw [hflag] at hca
          simpa [countPhase] using hca
        · show (c.failedRequestsQueue ++ [i]).length +
              List.countP (fun u => decide (u.phase = TaskPhase.ready))
                (c.tasks.set i { t with phase := TaskPhase.queued }) +
              List.countP (fun u => decide (u.phase = TaskPhase.awaitingRefresh))
                (c.tasks.set i { t with phase := TaskPhase.queued }) = N
          simp only [countPhase] at hsum
          rw [List.length_append]
          simp only [List.length_cons, List.length_nil]
          omega
        · show phaseAt c i = some TaskPhase.ready
          simp only [phaseAt, hti]
          exact congrArg some hph
        · intro j hji
          simp only [phaseAt]
          rw [get_set_other _ _ _ _ (fun e => hji e.symm)]
        · simp only [phaseAt]
          rw [get_set_same _ _ _ hi]
          intro h
          exact nomatch Option.some.inj h
        · intro hf
          rw [hflag] at hf
          exact nomatch hf
      · rw [if_neg hflag] at hs
        cases Option.some.inj hs
        have hf : c.isRefreshing = false := by
          revert hflag
          cases c.isRefreshing <;> simp
        have hq0 : c.failedRequestsQueue = [] := hInv.2.2.2 hf
        have ecr := countP_set_add
          (fun u => decide (u.phase = TaskPhase.ready)) c.tasks i t
          { t with retry := true, phase := TaskPhase.awaitingRefresh } hti
        simp [hph] at ecr
        have eca := countP_set_add
          (fun u => decide (u.phase = TaskPhase.awaitingRefresh)) c.tasks i t
          { t with retry := true, phase := TaskPhase.awaitingRefresh } hti
        simp [hph] at eca
        rw [hf] at hrc hca
        simp at hrc hca
        refine ⟨⟨?_, hInv1, ?_, ?_, ?_, ?_⟩, ?_, ?_, ?_, ?_⟩
        · show (c.tasks.set i _).length = N
          rw [List.length_set]
          exact hlen
        · intro j u hju
          by_cases hij : j = i
          · subst hij
            rw [get_set_same _ _ _ hi] at hju
            obtain rfl := Option.some.inj hju
            exact ⟨hst, hurl, Or.inr (Or.inl rfl)⟩
          · rw [get_set_other _ _ _ _ (fun e => hij e.symm)] at hju
            exact htasks j u hju
        · show c.refreshCount + 1 = (1 : Nat)
          rw [hrc]
        · show List.countP (fun u => decide (u.phase = TaskPhase.awaitingRefresh))
              (c.tasks.set i
                { t with retry := true, phase := TaskPhase.awaitingRefresh }) =
            (1 : Nat)
          simp only [countPhase] at hca
          omega
        · show c.failedRequestsQueue.length +
              List.countP (fun u => decide (u.phase = TaskPhase.ready))
                (c.tasks.set i
                  { t with retry := true, phase := TaskPhase.awaitingRefresh }) +
              List.countP (fun u => decide (u.phase = TaskPhase.awaitingRefresh))
                (c.tasks.set i
                  { t with retry := true, phase := TaskPhase.awaitingRefresh })
              = N
          simp only [countPhase] at hsum hca
          rw [hq0]
          rw [hq0] at hsum
          simp only [List.length_nil] at hsum ⊢
          omega
        · show phaseAt c i = some TaskPhase.ready
          simp only [phaseAt, hti]
          exact congrArg some hph
        · intro j hji
          simp only [phaseAt]
          rw [get_set_other _ _ _ _ (fun e => hji e.symm)]
        · simp only [phaseAt]
          rw [get_set_same _ _ _ hi]
          intro h
          exact nomatch Option.some.inj h
        · intro _
          simp only [phaseAt]
          rw [get_set_same _ _ _ hi]
          rfl
    next => exact nomatch hs

/-- Along any schedule made only of entry events, the scenario invariant is
kept, tasks outside the ready phase are frozen, and every scheduled task has
left the ready phase. -/
lemma c1_trace (N : Nat) : ∀ (order : List Nat) (c c' : Config), W N c →
    exec c (order.map Ev.run) = some c' →
    W N c' ∧
    (∀ j, phaseAt c j ≠ some TaskPhase.ready → phaseAt c' j = phaseAt c j) ∧
    (∀ j ∈ order, phaseAt c' j ≠ some TaskPhase.ready)
  | [], c, c', hW, hx => by
      cases Option.some.inj hx
      exact ⟨hW, fun j _ => rfl, fun j hj => absurd hj (List.not_mem_nil j)⟩
  | i :: order, c, c', hW, hx => by
      rw [List.map_cons] at hx
      unfold exec at hx
      cases hst : step c (Ev.run i) with
      | none => rw [hst] at hx; exact nomatch hx
      | some c1 =>
          rw [hst] at hx
          have hx1 : exec c1 (List.map Ev.run order) = some c' := hx
          have hrun : runEntry c i = some c1 := hst
          obtain ⟨hW1, hready, hpres, hnr, _⟩ := w_runEntry N c i c1 hW hrun
          obtain ⟨hW', hpres', hcov'⟩ := c1_trace N order c1 c' hW1 hx1
          refine ⟨hW', ?_, ?_⟩
          · intro j hj
            have hji : j ≠ i := fun e => hj (e ▸ hready)
            have h1 : phaseAt c1 j = phaseAt c j := hpres j hji
            rw [hpres' j (by rw [h1]; exact hj), h1]
          · intro j hj
            rcases List.mem_cons.mp hj with rfl | hj'
            · rw [hpres' j hnr]
              exact hnr
            · exact hcov' j hj'

/-- C1: for N simultaneous 401 failures of authorized calls inside one expiry
window (no renewal settled yet), any complete interleaving dispatches exactly
one renewal exchange: the first 401 raises the flag and dispatches, and all
later 401s are enqueued as pending entries, leaving N - 1 queue entries. -/
theorem c1_single_renewal_dispatch (N : Nat) (hN : 1 ≤ N) (order : List Nat)
    (c' : Config) (hcover : ∀ i, i < N → i ∈ order)
    (hexec : exec (initConfig (List.replicate N authCall401))
      (order.map Ev.run) = some c') :
    c'.refreshCount = 1 ∧ c'.isRefreshing = true ∧
    c'.failedRequestsQueue.length = N - 1 ∧
    (∀ j, order.head? = some j →
      phaseAt c' j = some TaskPhase.awaitingRefresh) := by
  cases order with
  | nil => exact absurd (hcover 0 hN) (List.not_mem_nil 0)
  | cons i rest =>
      rw [List.map_cons] at hexec
      unfold exec at hexec
      cases hst : step (initConfig (List.replicate N authCall401))
          (Ev.run i) with
      | none => rw [hst] at hexec; exact nomatch hexec
      | some c1 =>
          rw [hst] at hexec
          have hx1 : exec c1 (List.map Ev.run rest) = some c' := hexec
          have hrun : runEntry (initConfig (List.replicate N authCall401)) i
              = some c1 := hst
          obtain ⟨hW1, hready, hpres, hnr, hdisp⟩ :=
            w_runEntry N _ i c1 (w_init N) hrun
          have hdispatched : phaseAt c1 i = some TaskPhase.awaitingRefresh :=
            hdisp rfl
          obtain ⟨hW', hpres', hcov'⟩ := c1_trace N rest c1 c' hW1 hx1
          obtain ⟨hlen', hInv', htasks', hrc', hca', hsum'⟩ := hW'
          have hpi : phaseAt c' i = some TaskPhase.awaitingRefresh := by
            rw [hpres' i (by rw [hdispatched]; exact fun h => nomatch h)]
            exact hdispatched
          have hallnr : ∀ j, j < N → phaseAt c' j ≠ some TaskPhase.ready := by
            intro j hj
            rcases List.mem_cons.mp (hcover j hj) with rfl | hj'
            · rw [hpi]
              exact fun h => nomatch h
            · exact hcov' j hj'
          have hcr0 : countPhase TaskPhase.ready c' = 0 := by
            rw [countPhase, List.countP_eq_zero]
            intro u hu
            obtain ⟨n, hn⟩ := get_of_mem _ u hu
            have hnN : n < N := by
              have := lt_of_get_eq_some _ _ _ hn
              rw [hlen'] at this
              exact this
            have hnr' := hallnr n hnN
            simp only [phaseAt, hn] at hnr'
            intro hdec
            exact hnr' (congrArg some (of_decide_eq_true hdec))
          cases hflag : c'.isRefreshing with
          | false =>
              have hq' : c'.failedRequestsQueue = [] := hInv'.2.2.2 hflag
              rw [hflag] at hca'
              rw [hq'] at hsum'
              simp only [List.length_nil] at hsum'
              rw [hcr0] at hsum'
              simp at hca'
              omega
          | true =>
              rw [hflag] at hrc' hca'
              simp at hrc' hca'
              refine ⟨hrc', rfl, ?_, ?_⟩
              · rw [hcr0, hca'] at hsum'
                omega
              · intro j hj
                obtain rfl := Option.some.inj hj
                exact hpi

/-- Witness for C1 with three concurrent 401 calls scheduled 2, 0, 1. -/
theorem c1_single_renewal_dispatch_witness :
    1 ≤ 3 ∧ (∀ i, i < 3 → i ∈ [2, 0, 1]) ∧
    exec (initConfig (List.replicate 3 authCall401))
        ([2, 0, 1].map Ev.run) =
      some (⟨true, [0, 1], [⟨401, false, false, TaskPhase.queued⟩,
        ⟨401, false, false, TaskPhase.queued⟩,
        ⟨401, false, true, TaskPhase.awaitingRefresh⟩], 1⟩ : Config) ∧
    (⟨true, [0, 1], [⟨401, false, false, TaskPhase.queued⟩,
      ⟨401, false, false, TaskPhase.queued⟩,
      ⟨401, false, true, TaskPhase.awaitingRefresh⟩], 1⟩ :
        Config).refreshCount = 1 ∧
    (⟨true, [0, 1], [⟨401, false, false, TaskPhase.queued⟩,
      ⟨401, false, false, TaskPhase.queued⟩,
      ⟨401, false, true, TaskPhase.awaitingRefresh⟩], 1⟩ :
        Config).failedRequestsQueue.length = 3 - 1 :=
  ⟨by decide, by decide, by decide,
    (c1_single_renewal_dispatch 3 (by decide) [2, 0, 1]
      (⟨true, [0, 1], [⟨401, false, false, TaskPhase.queued⟩,
        ⟨401, false, false, TaskPhase.queued⟩,
        ⟨401, false, true, TaskPhase.awaitingRefresh⟩], 1⟩ : Config)
      (by decide) (by decide)).1,
    (c1_single_renewal_dispatch 3 (by decide) [2, 0, 1]
      (⟨true, [0, 1], [⟨401, false, false, TaskPhase.queued⟩,
        ⟨401, false, false, TaskPhase.queued⟩,
        ⟨401, false, true, TaskPhase.awaitingRefresh⟩], 1⟩ : Config)
      (by decide) (by decide)).2.2.1⟩

/-! ## Claim C6 -/

/-- Counterexample for C6: refreshAuth does not re-derive isAuthenticated
from cookie presence alone - with a previously installed user and an empty
document.cookie, the store still reports authenticated although the
accessToken marker is absent, refuting the claimed equivalence. -/
theorem c6_counterexample :
    isAuthenticatedState (refreshAuth ""
      (⟨some placeholderUser, none, false, none⟩ : ClientState)) = true ∧
    strIncludes "" "accessToken" = false := by
  decide

/-- C6 (amended): checkAuth (hence refreshAuth) computes isAuthenticated as
the disjunction of the accessToken substring test on document.cookie with
the previous authentication state - so on the initial page load, where no
user is installed yet, isAuthenticated equals cookie presence, while a later
refreshAuth can only keep or gain authentication, never lose it; no backend
call is involved in either case. -/
theorem c6_checkAuth_cookie_or_previous (docCookie : String)
    (s : ClientState) :
    isAuthenticatedState (checkAuth docCookie s) =
      (strIncludes docCookie "accessToken" || isAuthenticatedState s) ∧
    isAuthenticatedState (refreshAuth docCookie initialClientState) =
      strIncludes docCookie "accessToken" := by
  constructor
  · cases h : strIncludes docCookie "accessToken" with
    | true =>
        cases hs : s.storedUser <;>
          simp [checkAuth, isAuthenticatedState, h, hs]
    | false => simp [checkAuth, isAuthenticatedState, h]
  · cases h : strIncludes docCookie "accessToken" <;>
      simp [refreshAuth, checkAuth, isAuthenticatedState,
        initialClientState, h]

/-! ## Claim C7 -/

/-- Counterexample for C7: the gate redirects the unauthenticated request
for /dashboard/settings to sign-in with callbackUrl /dashboard/settings, but
the sign-in flow navigates to the fixed /dashboard page (part_003 line 221),
not back to that original path - the callback parameter is never read. -/
theorem c7_counterexample :
    proxy "/dashboard/settings" none =
      GateDecision.redirectSignin "/dashboard/settings" ∧
    signInNavTarget ≠ "/dashboard/settings" := by
  decide

/-- C7 (amended): for every unauthenticated request to a protected path the
gate redirects to sign-in carrying the exact original path as callbackUrl,
but after a successful sign-in the navigation always goes to Dashboard -
it returns to the original path only when that path is /dashboard itself. -/
theorem c7_gate_callback_and_fixed_nav (pathname : String)
    (cookie : Option String) (hauth : truthy cookie = false)
    (hprot : strStartsWith pathname "/dashboard" = true) :
    proxy pathname cookie = GateDecision.redirectSignin pathname ∧
    signInNavTarget = "/dashboard" := by
  refine ⟨?_, rfl⟩
  simp [proxy, hauth, hprot, PROTECTED_ROUTES]

/-- Witness for the amended C7 at a concrete protected sub-path. -/
theorem c7_gate_callback_and_fixed_nav_witness :
    truthy none = false ∧
    strStartsWith "/dashboard/reports" "/dashboard" = true ∧
    proxy "/dashboard/reports" none =
      GateDecision.redirectSignin "/dashboard/reports" :=
  ⟨by decide, by decide,
    (c7_gate_callback_and_fixed_nav "/dashboard/reports" none (by decide)
      (by decide)).1⟩

/-! ## Claim C8 -/

/-- Clearing the auth cookies always empties both slots of the jar. -/
lemma applyWrites_clear (isProd : Bool) (jar : CookieJar) :
    applyWrites jar (clearAuthCookiesWrites isProd) =
      ⟨none, none⟩ := by
  simp [applyWrites, clearAuthCookiesWrites, applyWrite, deleteCookie,
    accessTokenName, refreshTokenName, defaultCookieOptions]

/-- Write lists act by composition. -/
lemma applyWrites_append (jar : CookieJar) (ws1 ws2 : List CookieWrite) :
    applyWrites jar (ws1 ++ ws2) = applyWrites (applyWrites jar ws1) ws2 := by
  simp [applyWrites, List.foldl_append]

/-- The logout route always ends by clearing both session cookies. -/
lemma logoutRoute_jar (isProd : Bool) (b1 : BackendCallR) (rr : BackendAuth)
    (b2 : BackendCallR) (jar : CookieJar) :
    (logoutRoute isProd b1 rr b2 jar).jar = ⟨none, none⟩ := by
  show applyWrites jar (_ ++ clearAuthCookiesWrites isProd) = _
  rw [applyWrites_append, applyWrites_clear]

/-- C8: logout never fails from the point of view of the caller - whatever
the backend invalidate call does (succeeds, returns 401 or another error, or
is unreachable), the logout route clears both session cookies and answers
200, and the client logout clears the in-memory user and the cached local
identity and navigates to sign-in, whether or not the route call itself
resolved. -/
theorem c8_logout_always_tears_down (isProd : Bool) (b1 : BackendCallR)
    (rr : BackendAuth) (b2 : BackendCallR) (jar : CookieJar) (routeOk : Bool)
    (s : ClientState) :
    (logoutRoute isProd b1 rr b2 jar).jar = ⟨none, none⟩ ∧
    (logoutRoute isProd b1 rr b2 jar).status = 200 ∧
    (logoutClient routeOk s).user = none ∧
    (logoutClient routeOk s).storedUser = none ∧
    (logoutClient routeOk s).nav = some "/signin" := by
  refine ⟨logoutRoute_jar isProd b1 rr b2 jar, rfl, ?_, ?_, ?_⟩
  · cases routeOk <;> rfl
  · cases routeOk <;> rfl
  · cases routeOk <;> rfl

/-! ## Claim C5 -/

/-- Setting the auth cookie pair stores both values. -/
lemma applyWrites_setAuth (isProd : Bool) (a r : String) (jar : CookieJar) :
    applyWrites jar (setAuthCookiesWrites isProd a r) = ⟨some a, some r⟩ := by
  simp [applyWrites, setAuthCookiesWrites, setCookie, mergeOptions,
    defaultCookieOptions, applyWrite, accessTokenName, refreshTokenName]

/-- The two session cookies are set or cleared as a pair. -/
def paired (jar : CookieJar) : Prop :=
  jar.access.isSome = jar.refresh.isSome

instance (jar : CookieJar) : Decidable (paired jar) := by
  unfold paired
  infer_instance

/-- The cookie-mutating operations of the system, with the backend outcome
each one observed. -/
inductive AuthOp
  | signinOp (email password : String) (resp : BackendAuth)
  | signupOp (email username password : String) (resp : BackendAuth)
  | renewOp (resp : BackendAuth)
  | logoutOp (b1 : BackendCallR) (rr : BackendAuth) (b2 : BackendCallR)
deriving DecidableEq, Repr

/-- Effect of one operation on the session cookie jar. -/
def applyOp (isProd : Bool) (jar : CookieJar) : AuthOp → CookieJar
  | AuthOp.signinOp e p resp => (signinRoute isProd e p resp jar).jar
  | AuthOp.signupOp e u p resp => (signupRoute isProd e u p resp jar).jar
  | AuthOp.renewOp resp => (refreshRoute isProd resp jar).jar
  | AuthOp.logoutOp b1 rr b2 => (logoutRoute isProd b1 rr b2 jar).jar

/-- Jar reached after a sequence of operations. -/
def runOps (isProd : Bool) (jar : CookieJar) (ops : List AuthOp) : CookieJar :=
  ops.foldl (applyOp isProd) jar

/-- A single operation keeps the pairing of the two session cookies. -/
lemma paired_applyOp (isProd : Bool) (jar : CookieJar) (op : AuthOp)
    (h : paired jar) : paired (applyOp isProd jar op) := by
  cases op with
  | signinOp e p resp =>
      show paired (signinRoute isProd e p resp jar).jar
      by_cases hv : e = "" ∨ p = ""
      · simpa [signinRoute, hv] using h
      · cases resp with
        | ok a r =>
            by_cases ht : a = "" ∨ r = ""
            · simpa [signinRoute, hv, ht] using h
            · simp [signinRoute, hv, ht, applyWrites_setAuth, paired]
        | httpErr s => simpa [signinRoute, hv] using h
        | netErr => simpa [signinRoute, hv] using h
  | signupOp e u p resp =>
      show paired (signupRoute isProd e u p resp jar).jar
      by_cases hv : e = "" ∨ p = "" ∨ u = ""
      · simpa [signupRoute, hv] using h
      · cases resp with
        | ok a r =>
            by_cases ht : a = "" ∨ r = ""
            · simpa [signupRoute, hv, ht] using h
            · simp [signupRoute, hv, ht, applyWrites_setAuth, paired]
        | httpErr s => simpa [signupRoute, hv] using h
        | netErr => simpa [signupRoute, hv] using h
  | renewOp resp =>
      show paired (refreshRoute isProd resp jar).jar
      by_cases hr : truthy jar.refresh = false
      · simp [refreshRoute, hr, applyWrites_clear, paired]
      · have hr' : truthy jar.refresh = true := by
          revert hr
          cases truthy jar.refresh <;> simp
        cases resp with
        | ok a r =>
            by_cases ht : a = "" ∨ r = ""
            · simp [refreshRoute, hr', ht, applyWrites_clear, paired]
            · simp [refreshRoute, hr', ht, applyWrites_setAuth, paired]
        | httpErr s => simp [refreshRoute, hr', applyWrites_clear, paired]
        | netErr => simp [refreshRoute, hr', applyWrites_clear, paired]
  | logoutOp b1 rr b2 =>
      show paired (logoutRoute isProd b1 rr b2 jar).jar
      rw [logoutRoute_jar]
      rfl

/-- Pairing is preserved along every operation sequence. -/
lemma paired_runOps (isProd : Bool) : ∀ (ops : List AuthOp) (jar : CookieJar),
    paired jar → paired (runOps isProd jar ops)
  | [], _, h => h
  | op :: ops, jar, h =>
      paired_runOps isProd ops _ (paired_applyOp isProd jar op h)

/-- C5: in every reachable cookie state the access and refresh cookies are
set or cleared as a pair; a successful sign-in, sign-up or renewal leaves
both cookies set to the fresh pair, while logout and a terminal renewal
failure (missing refresh cookie handled inside the route, backend error or
network error) leave neither set. -/
theorem c5_cookie_pairing (isProd : Bool) :
    (∀ ops : List AuthOp, paired (runOps isProd ⟨none, none⟩ ops)) ∧
    (∀ jar e p a r, e ≠ "" → p ≠ "" → a ≠ "" → r ≠ "" →
      (signinRoute isProd e p (BackendAuth.ok a r) jar).jar =
        ⟨some a, some r⟩) ∧
    (∀ jar e u p a r, e ≠ "" → u ≠ "" → p ≠ "" → a ≠ "" → r ≠ "" →
      (signupRoute isProd e u p (BackendAuth.ok a r) jar).jar =
        ⟨some a, some r⟩) ∧
    (∀ jar a r, truthy jar.refresh = true → a ≠ "" → r ≠ "" →
      (refreshRoute isProd (BackendAuth.ok a r) jar).jar =
        ⟨some a, some r⟩) ∧
    (∀ jar b1 rr b2, (logoutRoute isProd b1 rr b2 jar).jar = ⟨none, none⟩) ∧
    (∀ jar n, (refreshRoute isProd (BackendAuth.httpErr n) jar).jar =
      ⟨none, none⟩) ∧
    (∀ jar, (refreshRoute isProd BackendAuth.netErr jar).jar =
      ⟨none, none⟩) := by
  refine ⟨fun ops => paired_runOps isProd ops _ rfl, ?_, ?_, ?_,
    fun jar b1 rr b2 => logoutRoute_jar isProd b1 rr b2 jar, ?_, ?_⟩
  · intro jar e p a r he hp ha hr
    have hv : ¬(e = "" ∨ p = "") := fun h => h.elim he hp
    have ht : ¬(a = "" ∨ r = "") := fun h => h.elim ha hr
    simp [signinRoute, hv, ht, applyWrites_setAuth]
  · intro jar e u p a r he hu hp ha hr
    have hv : ¬(e = "" ∨ p = "" ∨ u = "") :=
      fun h => h.elim he (fun h2 => h2.elim hp hu)
    have ht : ¬(a = "" ∨ r = "") := fun h => h.elim ha hr
    simp [signupRoute, hv, ht, applyWrites_setAuth]
  · intro jar a r hrt ha hr
    have ht : ¬(a = "" ∨ r = "") := fun h => h.elim ha hr
    simp [refreshRoute, hrt, ht, applyWrites_setAuth]
  · intro jar n
    by_cases hr : truthy jar.refresh = false
    · simp [refreshRoute, hr, applyWrites_clear]
    · have hr' : truthy jar.refresh = true := by
        revert hr
        cases truthy jar.refresh <;> simp
      simp [refreshRoute, hr', applyWrites_clear]
  · intro jar
    by_cases hr : truthy jar.refresh = false
    · simp [refreshRoute, hr, applyWrites_clear]
    · have hr' : truthy jar.refresh = true := by
        revert hr
        cases truthy jar.refresh <;> simp
      simp [refreshRoute, hr', applyWrites_clear]

/-- Witness for C5: a concrete successful sign-in stores the pair. -/
theorem c5_cookie_pairing_witness :
    ("e" : String) ≠ "" ∧ ("p" : String) ≠ "" ∧ ("a" : String) ≠ "" ∧
    ("r" : String) ≠ "" ∧
    (signinRoute true "e" "p" (BackendAuth.ok "a" "r") ⟨none, none⟩).jar =
      ⟨some "a", some "r"⟩ :=
  ⟨by decide, by decide, by decide, by decide,
    (c5_cookie_pairing true).2.1 ⟨none, none⟩ "e" "p" "a" "r" (by decide)
      (by decide) (by decide) (by decide)⟩

/-! ## Claim C9 -/

/-- Modelled from the claim wording: the uniform security profile C9 asserts
of every session-cookie write - httpOnly true, Secure exactly in production,
SameSite strict, Path /, with max-age 900 s for the access cookie and
604800 s for the refresh cookie. -/
def c9UniformProfile (isProd : Bool) (w : CookieWrite) : Prop :=
  w.options.httpOnly = some true ∧ w.options.secure = some isProd ∧
  w.options.sameSite = some SameSiteVal.strict ∧ w.options.path = some "/" ∧
  (w.name = accessTokenName → w.options.maxAge = some 900) ∧
  (w.name = refreshTokenName → w.options.maxAge = some 604800)

instance (isProd : Bool) (w : CookieWrite) :
    Decidable (c9UniformProfile isProd w) := by
  unfold c9UniformProfile
  infer_instance

/-- Base profile shared by all observed writes: httpOnly, Secure in
production, Path /. -/
def c9Base (isProd : Bool) (w : CookieWrite) : Prop :=
  w.options.httpOnly = some true ∧ w.options.secure = some isProd ∧
  w.options.path = some "/"

/-- The policy-fixed lifetimes of a token-setting write. -/
def c9SetAges (w : CookieWrite) : Prop :=
  (w.name = accessTokenName → w.options.maxAge = some 900) ∧
  (w.name = refreshTokenName → w.options.maxAge = some 604800)

/-- A strict token-setting write. -/
def c9StrictSet (isProd : Bool) (w : CookieWrite) : Prop :=
  c9Base isProd w ∧ w.options.sameSite = some SameSiteVal.strict ∧
  c9SetAges w

/-- A strict clearing write (immediate expiry). -/
def c9StrictClear (isProd : Bool) (w : CookieWrite) : Prop :=
  c9Base isProd w ∧ w.options.sameSite = some SameSiteVal.strict ∧
  w.options.maxAge = some 0

/-- A lax token-setting write (the logout-route helper). -/
def c9LaxSet (isProd : Bool) (w : CookieWrite) : Prop :=
  c9Base isProd w ∧ w.options.sameSite = some SameSiteVal.lax ∧
  c9SetAges w

/-- Counterexample for C9: at a concrete logout that hits the 401-refresh
retry, the route writes the access cookie through its local helper with
SameSite lax, and its final clearing writes carry max-age 0 - both writes of
the two session cookies violate the claimed uniform profile. -/
theorem c9_counterexample :
    logoutHelperSetCookie true accessTokenName "a" { maxAge := some 900 } ∈
      (logoutRoute true BackendCallR.err401 (BackendAuth.ok "a" "r")
        BackendCallR.ok ⟨some "x", some "y"⟩).writes ∧
    ¬ c9UniformProfile true
      (logoutHelperSetCookie true accessTokenName "a"
        { maxAge := some 900 }) ∧
    deleteCookie true refreshTokenName ∈
      (logoutRoute true BackendCallR.err401 (BackendAuth.ok "a" "r")
        BackendCallR.ok ⟨some "x", some "y"⟩).writes ∧
    ¬ c9UniformProfile true (deleteCookie true refreshTokenName) := by
  decide

/-- Every write of setAuthCookies is a strict set with the fixed ages. -/
lemma setAuth_writes_strict (isProd : Bool) (a r : String) :
    ∀ w ∈ setAuthCookiesWrites isProd a r, c9StrictSet isProd w := by
  intro w hw
  have hne : accessTokenName ≠ refreshTokenName := by decide
  have hne2 : refreshTokenName ≠ accessTokenName := by decide
  rcases List.mem_cons.mp hw with rfl | hw2
  · exact ⟨⟨rfl, rfl, rfl⟩, rfl, fun _ => rfl, fun hc => absurd hc hne⟩
  · rcases List.mem_cons.mp hw2 with rfl | hw3
    · exact ⟨⟨rfl, rfl, rfl⟩, rfl, fun hc => absurd hc hne2, fun _ => rfl⟩
    · exact absurd hw3 (List.not_mem_nil w)

/-- Every write of clearAuthCookies is a strict clearing write. -/
lemma clear_writes_strict (isProd : Bool) :
    ∀ w ∈ clearAuthCookiesWrites isProd, c9StrictClear isProd w := by
  intro w hw
  rcases List.mem_cons.mp hw with rfl | hw2
  · exact ⟨⟨rfl, rfl, rfl⟩, rfl, rfl⟩
  · rcases List.mem_cons.mp hw2 with rfl | hw3
    · exact ⟨⟨rfl, rfl, rfl⟩, rfl, rfl⟩
    · exact absurd hw3 (List.not_mem_nil w)

/-- Both writes of the logout-route retry helper are lax sets with the
fixed ages. -/
lemma logout_helper_writes_lax (isProd : Bool) (a r : String) :
    ∀ w ∈ [logoutHelperSetCookie isProd accessTokenName a
        { maxAge := some (15 * 60) },
      logoutHelperSetCookie isProd refreshTokenName r
        { maxAge := some (7 * 24 * 60 * 60) }], c9LaxSet isProd w := by
  intro w hw
  have hne : accessTokenName ≠ refreshTokenName := by decide
  have hne2 : refreshTokenName ≠ accessTokenName := by decide
  rcases List.mem_cons.mp hw with rfl | hw2
  · exact ⟨⟨rfl, rfl, rfl⟩, rfl, fun _ => rfl, fun hc => absurd hc hne⟩
  · rcases List.mem_cons.mp hw2 with rfl | hw3
    · exact ⟨⟨rfl, rfl, rfl⟩, rfl, fun hc => absurd hc hne2, fun _ => rfl⟩
    · exact absurd hw3 (List.not_mem_nil w)

/-- C9 (amended): every session-cookie write carries httpOnly, Secure
exactly in production and Path /; the cookie-utility token writes are
SameSite strict with max-age 900/604800, the clearing writes are SameSite
strict with max-age 0, and the one exception to strictness is the logout
route refresh-retry helper, whose two token writes are SameSite lax with
the standard max-ages. -/
theorem c9_write_profiles (isProd : Bool) :
    (∀ a r w, w ∈ setAuthCookiesWrites isProd a r → c9StrictSet isProd w) ∧
    (∀ w, w ∈ clearAuthCookiesWrites isProd → c9StrictClear isProd w) ∧
    (∀ e p resp jar w, w ∈ (signinRoute isProd e p resp jar).writes →
      c9StrictSet isProd w) ∧
    (∀ e u p resp jar w, w ∈ (signupRoute isProd e u p resp jar).writes →
      c9StrictSet isProd w) ∧
    (∀ resp jar w, w ∈ (refreshRoute isProd resp jar).writes →
      c9StrictSet isProd w ∨ c9StrictClear isProd w) ∧
    (∀ b1 rr b2 jar w, w ∈ (logoutRoute isProd b1 rr b2 jar).writes →
      c9StrictClear isProd w ∨ c9LaxSet isProd w) := by
  refine ⟨setAuth_writes_strict isProd, clear_writes_strict isProd,
    ?_, ?_, ?_, ?_⟩
  · intro e p resp jar w hw
    by_cases hv : e = "" ∨ p = ""
    · simp [signinRoute, hv] at hw
    · cases resp with
      | ok a r =>
          by_cases ht : a = "" ∨ r = ""
          · simp [signinRoute, hv, ht] at hw
          · exact setAuth_writes_strict isProd a r w
              (by simpa [signinRoute, hv, ht] using hw)
      | httpErr s => simp [signinRoute, hv] at hw
      | netErr => simp [signinRoute, hv] at hw
  · intro e u p resp jar w hw
    by_cases hv : e = "" ∨ p = "" ∨ u = ""
    · simp [signupRoute, hv] at hw
    · cases resp with
      | ok a r =>
          by_cases ht : a = "" ∨ r = ""
          · simp [signupRoute, hv, ht] at hw
          · exact setAuth_writes_strict isProd a r w
              (by simpa [signupRoute, hv, ht] using hw)
      | httpErr s => simp [signupRoute, hv] at hw
      | netErr => simp [signupRoute, hv] at hw
  · intro resp jar w hw
    by_cases hr : truthy jar.refresh = false
    · exact Or.inr (clear_writes_strict isProd w
        (by simpa [refreshRoute, hr] using hw))
    · have hr' : truthy jar.refresh = true := by
        revert hr
        cases truthy jar.refresh <;> simp
      cases resp with
      | ok a r =>
          by_cases ht : a = "" ∨ r = ""
          · exact Or.inr (clear_writes_strict isProd w
              (by simpa [refreshRoute, hr', ht] using hw))
          · exact Or.inl (setAuth_writes_strict isProd a r w
              (by simpa [refreshRoute, hr', ht] using hw))
      | httpErr s =>
          exact Or.inr (clear_writes_strict isProd w
            (by simpa [refreshRoute, hr'] using hw))
      | netErr =>
          exact Or.inr (clear_writes_strict isProd w
            (by simpa [refreshRoute, hr'] using hw))
  · intro b1 rr b2 jar w hw
    have hw2 : w ∈ (if truthy jar.access = true ∨ truthy jar.refresh = true
        then
          match b1 with
          | BackendCallR.err401 =>
              match rr with
              | BackendAuth.ok a r =>
                  if a ≠ "" ∧ r ≠ "" then
                    [logoutHelperSetCookie isProd accessTokenName a
                        { maxAge := some (15 * 60) },
                      logoutHelperSetCookie isProd refreshTokenName r
                        { maxAge := some (7 * 24 * 60 * 60) }]
                  else []
              | _ => []
          | _ => []
        else []) ++ clearAuthCookiesWrites isProd := hw
    rcases List.mem_append.mp hw2 with hleft | hright
    · right
      split at hleft
      · cases b1 with
        | err401 =>
            cases rr with
            | ok a r =>
                have hl2 : w ∈ (if a ≠ "" ∧ r ≠ "" then
                    [logoutHelperSetCookie isProd accessTokenName a
                        { maxAge := some (15 * 60) },
                      logoutHelperSetCookie isProd refreshTokenName r
                        { maxAge := some (7 * 24 * 60 * 60) }]
                  else []) := hleft
                by_cases ht : a ≠ "" ∧ r ≠ ""
                · rw [if_pos ht] at hl2
                  exact logout_helper_writes_lax isProd a r w hl2
                · rw [if_neg ht] at hl2
                  exact absurd hl2 (List.not_mem_nil w)
            | httpErr s =>
                exact absurd (show w ∈ ([] : List CookieWrite) from hleft)
                  (List.not_mem_nil w)
            | netErr =>
                exact absurd (show w ∈ ([] : List CookieWrite) from hleft)
                  (List.not_mem_nil w)
        | ok =>
            exact absurd (show w ∈ ([] : List CookieWrite) from hleft)
              (List.not_mem_nil w)
        | errOther s =>
            exact absurd (show w ∈ ([] : List CookieWrite) from hleft)
              (List.not_mem_nil w)
        | netErr =>
            exact absurd (show w ∈ ([] : List CookieWrite) from hleft)
              (List.not_mem_nil w)
      · exact absurd hleft (List.not_mem_nil w)
    · exact Or.inl (clear_writes_strict isProd w hright)

/-- Witness for the amended C9 at a concrete refresh-route renewal write. -/
theorem c9_write_profiles_witness :
    setCookie true accessTokenName "a" { maxAge := some (15 * 60) } ∈
      (refreshRoute true (BackendAuth.ok "a" "r")
        ⟨none, some "y"⟩).writes ∧
    c9StrictSet true
      (setCookie true accessTokenName "a" { maxAge := some (15 * 60) }) := by
  refine ⟨by decide, ?_⟩
  rcases (c9_write_profiles true).2.2.2.2.1 (BackendAuth.ok "a" "r")
      ⟨none, some "y"⟩
      (setCookie true accessTokenName "a" { maxAge := some (15 * 60) })
      (by decide) with h | h
  · exact h
  · exact absurd h.2.2 (by decide)

end Frontdb
